import Mathlib

/-!
Verification of the SlideSummarizer-AI client (src/frontend-old/src/App.js)
and of the backend job lifecycle described by the specification.

The React client is embedded shallowly: component state becomes `AppState`,
the network becomes explicit response values passed to the embedded handlers,
and a JavaScript `throw` inside `pollStatus`'s `try` block becomes the
`Except.error` constructor, caught by the surrounding `match` (the `catch`).
A JSON field that may be absent is an `Option`; JavaScript's `x || d`
on strings (empty string is falsy) is `jsOrStr`.
-/

/-! ## Backend job state machine (modelled from the spec) -/

/-- Modelled from the spec: the backend job record's `status` values
(`uploaded`, `processing`, `completed`, `failed`).  The backend source
(database layer, API, explainer service) is absent from the repository
snapshot; only its README documents the lifecycle. -/
inductive JobStatus where
  | uploaded
  | processing
  | completed
  | failed
deriving DecidableEq, Repr

/-- Position of a status in the forward order
`uploaded → processing → (completed | failed)`. -/
def statusRank : JobStatus → Nat
  | .uploaded => 0
  | .processing => 1
  | .completed => 2
  | .failed => 2

/-- Terminal statuses: `completed` and `failed`. -/
def JobStatus.isTerminal : JobStatus → Bool
  | .completed => true
  | .failed => true
  | _ => false

/-- Modelled from the spec: the transitions any operation of the system may
perform on a job's `status`.  Intake creates jobs at `uploaded`; the worker
claims (`uploaded → processing`) and writes a terminal outcome
(`processing → completed` or `processing → failed`); readers never write. -/
inductive JobStep : JobStatus → JobStatus → Prop
  | claim : JobStep .uploaded .processing
  | complete : JobStep .processing .completed
  | fail : JobStep .processing .failed

/-! ## Client data model (from App.js) -/

/-- One entry of `SUMMARY_LEVELS` in App.js. -/
structure LevelConfig where
  label : String
  description : String
  color : String
  bgColor : String
deriving DecidableEq, Repr

/-- The `SUMMARY_LEVELS` object of App.js, as an ordered key/value list. -/
def SUMMARY_LEVELS : List (String × LevelConfig) :=
  [ ("beginner",
      { label := "📖 Beginner-Friendly"
        description := "Simple and clear explanation"
        color := "#FF6B9D"
        bgColor := "#FFE8F0" }),
    ("comprehensive",
      { label := "📊 Comprehensive Analysis"
        description := "Detailed and thorough"
        color := "#4ECDC4"
        bgColor := "#E0F7F6" }),
    ("executive",
      { label := "⚡ Executive Brief"
        description := "Quick and concise"
        color := "#FFD93D"
        bgColor := "#FFF9E6" }) ]

/-- One entry of `LANGUAGES` in App.js. -/
structure LangConfig where
  label : String
  code : String
deriving DecidableEq, Repr

/-- The `LANGUAGES` object of App.js, as an ordered key/value list. -/
def LANGUAGES : List (String × LangConfig) :=
  [ ("en", { label := "🇺🇸 English", code := "en" }),
    ("he", { label := "🇮🇱 Hebrew", code := "he" }),
    ("ru", { label := "🇷🇺 Russian", code := "ru" }),
    ("es", { label := "🇪🇸 Spanish", code := "es" }) ]

/-- The keys of `SUMMARY_LEVELS`. -/
def summaryLevelKeys : List String := SUMMARY_LEVELS.map Prod.fst

/-- The keys of `LANGUAGES`. -/
def languageKeys : List String := LANGUAGES.map Prod.fst

/-- One element of the `explanation` array in a status payload, as the
client reads it (`item.slide_number`, `item.explanation`). -/
structure SlideExplanation where
  slide_number : Option Nat
  explanation : Option String
deriving DecidableEq, Repr

/-- The React component state of `App` (the eight `useState` hooks).
`file` holds the selected file's name, `none` when no file is selected. -/
structure AppState where
  file : Option String
  summaryLevel : String
  language : String
  uploadUid : String
  statusText : String
  loading : Bool
  explanations : List SlideExplanation
  error : String
deriving DecidableEq, Repr

/-- The initial component state: `useState(null)`, `useState("comprehensive")`,
`useState("en")`, and empty strings / list / `false` for the rest. -/
def initState : AppState :=
  { file := none
    summaryLevel := "comprehensive"
    language := "en"
    uploadUid := ""
    statusText := ""
    loading := false
    explanations := []
    error := "" }

/-- JavaScript `v || d` on an optional string field: an absent field
(`undefined`) and the empty string are falsy, so both give the default. -/
def jsOrStr (v : Option String) (d : String) : String :=
  match v with
  | none => d
  | some s => if s = "" then d else s

/-- `SUMMARY_LEVELS[k]`, as an option on the key list. -/
def lookupLevel (k : String) : Option LevelConfig :=
  (SUMMARY_LEVELS.find? (fun p => p.1 == k)).map Prod.snd

/-- `SUMMARY_LEVELS[summaryLevel].label`.  In reachable states the key is
always present (see the enumeration invariant); the default covers the
total function's unreachable branch. -/
def levelLabel (k : String) : String :=
  ((lookupLevel k).map LevelConfig.label).getD "undefined"

/-! ## Network payloads -/

/-- The JSON body of one `GET /status/:uid` response together with the HTTP
`ok` flag.  The client reads only `status`, `explanation` and
`error_message`; the `result` field models a payload that additionally
carries a field of that name, which the client never reads. -/
structure StatusResponse where
  ok : Bool
  status : String
  explanation : Option (List SlideExplanation)
  error_message : Option String
  result : Option (List SlideExplanation)
deriving DecidableEq, Repr

/-- The JSON body of the `POST /upload` response together with the HTTP
`ok` flag.  On failure the client reads `errBody.error`; on success it
reads `data.uid`.  The `id` field models a payload that additionally
carries a field of that name, which the client never reads. -/
structure UploadResponse where
  ok : Bool
  error : Option String
  uid : Option String
  id : Option String
deriving DecidableEq, Repr

/-- The multipart form the client builds in `uploadFile`:
`file`, `email`, `summary_level`, `language`, appended in that order. -/
structure UploadForm where
  file : String
  email : String
  summary_level : String
  language : String
deriving DecidableEq, Repr

/-- Observable effects of one `uploadFile` invocation: the upload request
issued (`none` when no network request is made) and the uid passed to
`pollStatus` (`none` when polling never starts). -/
structure UploadEffects where
  request : Option UploadForm
  polledUid : Option String
deriving DecidableEq, Repr

/-! ## pollStatus (App.js lines 89–122) -/

/-- Loop exit discriminator: which `break` left the `while (true)` loop, or
`running` when the supplied response trace ended with the loop still
going (the loop never exits on a non-terminal status). -/
inductive PollExit where
  | completed
  | failed
  | running
deriving DecidableEq, Repr

/-- The fixed delay between consecutive status queries,
`setTimeout(resolve, 2000)`. -/
def POLL_INTERVAL_MS : Nat := 2000

/-- State update of the `status === "completed"` branch: success banner,
`explanations := data.explanation || []`, error cleared.  (`[]` is truthy
in JavaScript, so only an absent field falls back to `[]`.) -/
def completedState (s : AppState) (r : StatusResponse) : AppState :=
  { s with statusText := "✨ Processing completed successfully!"
           explanations := r.explanation.getD []
           error := "" }

/-- State update of the `status === "failed"` branch:
`error := data.error_message || "Processing failed"`, status text cleared. -/
def failedState (s : AppState) (r : StatusResponse) : AppState :=
  { s with error := jsOrStr r.error_message "Processing failed"
           statusText := "" }

/-- The state and exit produced by the first terminal response `t`. -/
def terminalStep (s : AppState) (t : StatusResponse) : AppState × PollExit :=
  if t.status = "completed" then (completedState s t, PollExit.completed)
  else (failedState s t, PollExit.failed)

/-- The body of `pollStatus`'s `try { while (true) ... }`, run against the
trace of successive `/status/:uid` responses.  `Except.error` is the
JavaScript `throw` on a non-OK response; the `Nat` counts the
`setTimeout(..., 2000)` waits executed, one after every non-terminal
response, i.e. one fixed interval between consecutive queries. -/
def pollLoopAux (s : AppState) : List StatusResponse → Except String (AppState × PollExit) × Nat
  | [] => (Except.ok (s, PollExit.running), 0)
  | r :: rest =>
    if r.ok = false then (Except.error "Server error while checking status", 0)
    else if r.status = "completed" then (Except.ok (completedState s r, PollExit.completed), 0)
    else if r.status = "failed" then (Except.ok (failedState s r, PollExit.failed), 0)
    else
      let p := pollLoopAux s rest
      (p.1, p.2 + 1)

/-- The state `pollStatus` establishes before entering the loop:
`setLoading(true)` and the "Processing slides" banner. -/
def pollStart (s : AppState) : AppState :=
  { s with loading := true
           statusText := "⏳ Processing slides (" ++ levelLabel s.summaryLevel ++ ")..." }

/-- `pollStatus(uid)` over a given response trace: set up the banner, run
the loop, handle a thrown query error in `catch` (set `error`, clear the
banner), and `finally` clear `loading`. -/
def pollStatus (s : AppState) (rs : List StatusResponse) : AppState :=
  let s1 := pollStart s
  match (pollLoopAux s1 rs).1 with
  | Except.ok p => { p.1 with loading := false }
  | Except.error msg =>
    { s1 with error := jsOrStr (some msg) "Status check failed"
              statusText := ""
              loading := false }

/-! ## uploadFile (App.js lines 47–86) -/

/-- The form data built in `uploadFile`: the selected file plus the
hard-coded email `"test@example.com"` and the current selections. -/
def buildFormData (s : AppState) (f : String) : UploadForm :=
  { file := f
    email := "test@example.com"
    summary_level := s.summaryLevel
    language := s.language }

/-- `uploadFile()` against a given upload response and status-poll trace.
With no file selected it sets the error and returns before `setLoading`
and before any network request.  Otherwise it posts the form; a non-OK
response throws `errBody.error || "Upload failed"` into the `catch`; on
success it stores `data.uid` and polls that uid until terminal. -/
def uploadFile (s : AppState) (resp : UploadResponse) (rs : List StatusResponse) :
    AppState × UploadEffects :=
  match s.file with
  | none => ({ s with error := "Please select a file first" }, { request := none, polledUid := none })
  | some f =>
    let s1 := { s with loading := true, error := "", statusText := "Uploading presentation..." }
    let fd := buildFormData s1 f
    if resp.ok = false then
      ({ s1 with error := jsOrStr resp.error "Upload failed", statusText := "", loading := false },
       { request := some fd, polledUid := none })
    else
      let uid := (resp.uid).getD "undefined"
      let s2 := { s1 with uploadUid := uid
                          statusText := "✅ File uploaded - Processing with AI..." }
      let s3 := pollStatus s2 rs
      ({ s3 with loading := false }, { request := some fd, polledUid := some uid })

/-- `downloadPdf()`'s state effect: with no explanations it sets an error;
otherwise it only produces the PDF document. -/
def downloadPdf (s : AppState) : AppState :=
  if s.explanations.length = 0 then { s with error := "No explanations to export" } else s

/-! ## UI events and reachable states -/

/-- The user-interface events that mutate component state.  Language and
level buttons are rendered from `Object.entries` of the configuration
objects, so a click carries an index into those lists; the buttons are
`disabled` while `loading`.  The upload button is `disabled` while
`loading` or with no file; the download button while `explanations` is
empty. -/
inductive ClientEvent where
  | selectLanguage (i : Fin LANGUAGES.length)
  | selectLevel (i : Fin SUMMARY_LEVELS.length)
  | chooseFile (f : String)
  | clickUpload (resp : UploadResponse) (rs : List StatusResponse)
  | clickDownload

/-- One UI event applied to the component state. -/
def step (s : AppState) : ClientEvent → AppState
  | .selectLanguage i => if s.loading then s else { s with language := (LANGUAGES.get i).1 }
  | .selectLevel i => if s.loading then s else { s with summaryLevel := (SUMMARY_LEVELS.get i).1 }
  | .chooseFile f =>
    { s with file := some f
             explanations := []
             uploadUid := ""
             error := ""
             statusText := "" }
  | .clickUpload resp rs =>
    if s.loading || s.file.isNone then s else (uploadFile s resp rs).1
  | .clickDownload =>
    if s.explanations.length = 0 then s else downloadPdf s

/-- The component states reachable from the initial render. -/
inductive Reachable : AppState → Prop
  | init : Reachable initState
  | step (s : AppState) (e : ClientEvent) : Reachable s → Reachable (step s e)

/-! ## Helper lemmas -/

/-- A response that is OK and non-terminal steps the loop past itself:
the loop result is that of the remaining trace, with one more wait. -/
lemma pollLoopAux_cons_nonterminal (s : AppState) (r : StatusResponse)
    (rest : List StatusResponse) (hok : r.ok = true)
    (hc : r.status ≠ "completed") (hf : r.status ≠ "failed") :
    pollLoopAux s (r :: rest) = ((pollLoopAux s rest).1, (pollLoopAux s rest).2 + 1) := by
  simp [pollLoopAux, hok, hc, hf]

/-- Skipping a wholly OK, non-terminal prefix: the loop result is that of
the remaining trace, with one wait per prefix element. -/
lemma pollLoopAux_append_nonterminal (s : AppState) (pre rest : List StatusResponse)
    (h : ∀ r ∈ pre, r.ok = true ∧ r.status ≠ "completed" ∧ r.status ≠ "failed") :
    pollLoopAux s (pre ++ rest) = ((pollLoopAux s rest).1, (pollLoopAux s rest).2 + pre.length) := by
  induction pre with
  | nil => simp
  | cons r pre ih =>
    have hr := h r (List.mem_cons_self r pre)
    have hrest : ∀ x ∈ pre, x.ok = true ∧ x.status ≠ "completed" ∧ x.status ≠ "failed" :=
      fun x hx => h x (List.mem_cons_of_mem r hx)
    rw [List.cons_append, pollLoopAux_cons_nonterminal s r (pre ++ rest) hr.1 hr.2.1 hr.2.2,
      ih hrest]
    simp [Nat.add_assoc]

/-- The loop never touches the summary level or the language: both state
updates in the loop body leave them unchanged. -/
lemma pollLoopAux_ok_preserves (rs : List StatusResponse) (s : AppState)
    (p : AppState × PollExit) (h : (pollLoopAux s rs).1 = Except.ok p) :
    p.1.summaryLevel = s.summaryLevel ∧ p.1.language = s.language := by
  induction rs with
  | nil =>
    simp [pollLoopAux] at h
    subst h
    exact ⟨rfl, rfl⟩
  | cons r rest ih =>
    by_cases hok : r.ok = true
    · by_cases hc : r.status = "completed"
      · simp [pollLoopAux, hok, hc] at h
        subst h
        simp [completedState]
      · by_cases hf : r.status = "failed"
        · simp [pollLoopAux, hok, hc, hf] at h
          subst h
          simp [failedState]
        · rw [pollLoopAux_cons_nonterminal s r rest hok hc hf] at h
          exact ih h
    · have hko : r.ok = false := by simpa using hok
      simp [pollLoopAux, hko] at h

/-- `pollStatus` never changes the selected summary level. -/
lemma pollStatus_summaryLevel (s : AppState) (rs : List StatusResponse) :
    (pollStatus s rs).summaryLevel = s.summaryLevel := by
  simp only [pollStatus]
  cases h : (pollLoopAux (pollStart s) rs).1 with
  | ok p =>
    have hp := pollLoopAux_ok_preserves rs (pollStart s) p h
    simpa [pollStart] using hp.1
  | error msg => simp [pollStart]

/-- `pollStatus` never changes the selected language. -/
lemma pollStatus_language (s : AppState) (rs : List StatusResponse) :
    (pollStatus s rs).language = s.language := by
  simp only [pollStatus]
  cases h : (pollLoopAux (pollStart s) rs).1 with
  | ok p =>
    have hp := pollLoopAux_ok_preserves rs (pollStart s) p h
    simpa [pollStart] using hp.2
  | error msg => simp [pollStart]

/-- `uploadFile` never changes the selected summary level or language. -/
lemma uploadFile_preserves (s : AppState) (resp : UploadResponse) (rs : List StatusResponse) :
    (uploadFile s resp rs).1.summaryLevel = s.summaryLevel ∧
      (uploadFile s resp rs).1.language = s.language := by
  unfold uploadFile
  cases hf : s.file with
  | none => simp
  | some f =>
    by_cases hok : resp.ok = false
    · simp [hok]
    · simp [hok, pollStatus_summaryLevel, pollStatus_language]

/-! ## Claim theorems -/

/-- C1: every transition of the job state machine moves strictly forward
along `uploaded → processing → (completed | failed)`: the rank strictly
increases (no regression), no transition starts in a terminal state, a
transition into a terminal state starts at `processing` (no skip), and
from `uploaded` the only move is to `processing`. -/
theorem jobStatus_moves_forward (a b : JobStatus) (h : JobStep a b) :
    statusRank a < statusRank b ∧
      a.isTerminal = false ∧
      (b.isTerminal = true → a = JobStatus.processing) ∧
      (a = JobStatus.uploaded → b = JobStatus.processing) := by
  cases h <;> simp [statusRank, JobStatus.isTerminal]

/-- Witness for C1: the claim theorem applied to the claim transition. -/
theorem jobStatus_moves_forward_witness :
    statusRank JobStatus.uploaded < statusRank JobStatus.processing ∧
      JobStatus.uploaded.isTerminal = false :=
  ⟨(jobStatus_moves_forward JobStatus.uploaded JobStatus.processing JobStep.claim).1,
   (jobStatus_moves_forward JobStatus.uploaded JobStatus.processing JobStep.claim).2.1⟩

/-- C8: every upload request the client issues carries the fixed owner
email `test@example.com`; `uploadFile` never issues a request with any
other email. -/
theorem upload_email_is_fixed (s : AppState) (resp : UploadResponse)
    (rs : List StatusResponse) (fd : UploadForm)
    (h : (uploadFile s resp rs).2.request = some fd) :
    fd.email = "test@example.com" := by
  unfold uploadFile at h
  cases hf : s.file with
  | none => rw [hf] at h; simp at h
  | some f =>
    rw [hf] at h
    by_cases hok : resp.ok = false
    · simp [hok] at h
      rw [← h]
      rfl
    · simp [hok] at h
      rw [← h]
      rfl

/-- Witness for C8: a concrete upload request carries the fixed email. -/
theorem upload_email_is_fixed_witness :
    (UploadForm.mk "deck.pptx" "test@example.com" "comprehensive" "en").email
      = "test@example.com" :=
  upload_email_is_fixed { initState with file := some "deck.pptx" }
    { ok := true, error := none, uid := some "u-1", id := none } []
    (UploadForm.mk "deck.pptx" "test@example.com" "comprehensive" "en") (by decide)

/-- C9: selecting a new file clears all state belonging to the previous
job: the explanations list, the upload identifier, the error text and the
status text all become empty, while the new file is stored. -/
theorem choose_file_clears_previous_job (s : AppState) (f : String) :
    (step s (ClientEvent.chooseFile f)).explanations = [] ∧
      (step s (ClientEvent.chooseFile f)).uploadUid = "" ∧
      (step s (ClientEvent.chooseFile f)).error = "" ∧
      (step s (ClientEvent.chooseFile f)).statusText = "" ∧
      (step s (ClientEvent.chooseFile f)).file = some f := by
  exact ⟨rfl, rfl, rfl, rfl, rfl⟩

/-- C10: invoking `uploadFile` with no file selected sets the error
message `Please select a file first` and changes nothing else: no network
request is issued, no polling starts, and in particular `loading` is
never entered. -/
theorem upload_without_file_only_sets_error (s : AppState) (resp : UploadResponse)
    (rs : List StatusResponse) (h : s.file = none) :
    uploadFile s resp rs =
      ({ s with error := "Please select a file first" },
       { request := none, polledUid := none }) := by
  unfold uploadFile
  rw [h]

/-- Witness for C10: the no-file path at the initial state. -/
theorem upload_without_file_only_sets_error_witness :
    uploadFile initState { ok := true, error := none, uid := some "u-1", id := none } [] =
      ({ initState with error := "Please select a file first" },
       { request := none, polledUid := none }) :=
  upload_without_file_only_sets_error initState
    { ok := true, error := none, uid := some "u-1", id := none } [] rfl

/-- A wholly OK, non-terminal trace leaves the loop running: one wait per
response, no exit. -/
lemma pollLoopAux_all_nonterminal (s : AppState) (rs : List StatusResponse)
    (h : ∀ r ∈ rs, r.ok = true ∧ r.status ≠ "completed" ∧ r.status ≠ "failed") :
    pollLoopAux s rs = (Except.ok (s, PollExit.running), rs.length) := by
  have := pollLoopAux_append_nonterminal s rs [] h
  simpa [pollLoopAux] using this

/-- An OK terminal response at the head exits the loop at once with the
state carrying that snapshot's data. -/
lemma pollLoopAux_terminal_head (s : AppState) (t : StatusResponse)
    (post : List StatusResponse) (ht : t.ok = true)
    (hterm : t.status = "completed" ∨ t.status = "failed") :
    pollLoopAux s (t :: post) = (Except.ok (terminalStep s t), 0) := by
  cases hterm with
  | inl hc => simp [pollLoopAux, ht, hc, terminalStep]
  | inr hf => simp [pollLoopAux, ht, hf, terminalStep]

/-- The loop exits exactly at the first OK terminal response, after one
wait per preceding non-terminal response. -/
lemma pollLoopAux_first_terminal (s : AppState) (pre post : List StatusResponse)
    (t : StatusResponse)
    (hpre : ∀ r ∈ pre, r.ok = true ∧ r.status ≠ "completed" ∧ r.status ≠ "failed")
    (ht : t.ok = true) (hterm : t.status = "completed" ∨ t.status = "failed") :
    pollLoopAux s (pre ++ t :: post) = (Except.ok (terminalStep s t), pre.length) := by
  rw [pollLoopAux_append_nonterminal s pre (t :: post) hpre,
    pollLoopAux_terminal_head s t post ht hterm]
  simp

/-- `pollStatus` on a trace whose first terminal response is `t` ends in
the state of that snapshot, with `loading` cleared by `finally`. -/
lemma pollStatus_first_terminal (s : AppState) (pre post : List StatusResponse)
    (t : StatusResponse)
    (hpre : ∀ r ∈ pre, r.ok = true ∧ r.status ≠ "completed" ∧ r.status ≠ "failed")
    (ht : t.ok = true) (hterm : t.status = "completed" ∨ t.status = "failed") :
    pollStatus s (pre ++ t :: post) =
      { (terminalStep (pollStart s) t).1 with loading := false } := by
  simp only [pollStatus,
    pollLoopAux_first_terminal (pollStart s) pre post t hpre ht hterm]

/-- C2: the polling loop of `pollStatus` queries, waits one fixed
2000 ms interval after every non-terminal response, and exits only at a
terminal status: on a wholly non-terminal OK trace it is still running
after one wait per query, and on a trace whose first OK terminal response
is `t` it exits exactly there — after `pre.length` waits — delivering the
final snapshot's data (`terminalStep`) to the caller's state. -/
theorem pollStatus_polls_until_terminal (s : AppState) (pre post : List StatusResponse)
    (t : StatusResponse)
    (hpre : ∀ r ∈ pre, r.ok = true ∧ r.status ≠ "completed" ∧ r.status ≠ "failed")
    (ht : t.ok = true) (hterm : t.status = "completed" ∨ t.status = "failed") :
    pollLoopAux (pollStart s) (pre ++ t :: post)
        = (Except.ok (terminalStep (pollStart s) t), pre.length) ∧
      pollStatus s (pre ++ t :: post)
        = { (terminalStep (pollStart s) t).1 with loading := false } ∧
      (∀ rs2 : List StatusResponse,
        (∀ r ∈ rs2, r.ok = true ∧ r.status ≠ "completed" ∧ r.status ≠ "failed") →
        pollLoopAux (pollStart s) rs2
          = (Except.ok (pollStart s, PollExit.running), rs2.length)) :=
  ⟨pollLoopAux_first_terminal (pollStart s) pre post t hpre ht hterm,
   pollStatus_first_terminal s pre post t hpre ht hterm,
   fun rs2 h2 => pollLoopAux_all_nonterminal (pollStart s) rs2 h2⟩

/-- Witness for C2: one non-terminal poll, then a completed snapshot. -/
theorem pollStatus_polls_until_terminal_witness :
    pollLoopAux (pollStart initState)
        ([{ ok := true, status := "processing", explanation := none,
            error_message := none, result := none }] ++
          [{ ok := true, status := "completed",
             explanation := some [{ slide_number := some 1, explanation := some "intro" }],
             error_message := none, result := none }])
      = (Except.ok (terminalStep (pollStart initState)
          { ok := true, status := "completed",
            explanation := some [{ slide_number := some 1, explanation := some "intro" }],
            error_message := none, result := none }), 1) :=
  (pollStatus_polls_until_terminal initState
    [{ ok := true, status := "processing", explanation := none,
       error_message := none, result := none }] []
    { ok := true, status := "completed",
      explanation := some [{ slide_number := some 1, explanation := some "intro" }],
      error_message := none, result := none }
    (by decide) (by decide) (Or.inl (by decide))).1

/-- C3: a `failed` snapshot is handled as data on the non-exceptional
path: the loop returns through `Except.ok` (never the thrown
`Except.error`), exactly like `completed`, and the caller's state receives
the job's `error_message` in `error`. -/
theorem pollStatus_failed_is_data (s : AppState) (pre post : List StatusResponse)
    (r : StatusResponse)
    (hpre : ∀ x ∈ pre, x.ok = true ∧ x.status ≠ "completed" ∧ x.status ≠ "failed")
    (hok : r.ok = true) (hst : r.status = "failed") :
    pollLoopAux (pollStart s) (pre ++ r :: post)
        = (Except.ok (failedState (pollStart s) r, PollExit.failed), pre.length) ∧
      pollStatus s (pre ++ r :: post) =
        { failedState (pollStart s) r with loading := false } ∧
      (pollStatus s (pre ++ r :: post)).error
        = jsOrStr r.error_message "Processing failed" := by
  have hts : terminalStep (pollStart s) r = (failedState (pollStart s) r, PollExit.failed) := by
    simp [terminalStep, hst]
  refine ⟨?_, ?_, ?_⟩
  · rw [pollLoopAux_first_terminal (pollStart s) pre post r hpre hok (Or.inr hst), hts]
  · rw [pollStatus_first_terminal s pre post r hpre hok (Or.inr hst), hts]
  · rw [pollStatus_first_terminal s pre post r hpre hok (Or.inr hst), hts]
    simp [failedState]

/-- Witness for C3: a failed snapshot with an explanatory message. -/
theorem pollStatus_failed_is_data_witness :
    pollStatus initState
        ([] ++ [{ ok := true, status := "failed", explanation := none,
                  error_message := some "Unparseable file", result := none }]) =
      { failedState (pollStart initState)
          { ok := true, status := "failed", explanation := none,
            error_message := some "Unparseable file", result := none }
        with loading := false } :=
  (pollStatus_failed_is_data initState [] []
    { ok := true, status := "failed", explanation := none,
      error_message := some "Unparseable file", result := none }
    (by simp) (by decide) (by decide)).2.1

/-- C5: a non-OK response from the status endpoint is thrown
(`Except.error`), terminating the polling loop at that query with the
explicit failure message, which the caller receives in `error`; an OK
snapshot whose job status is `failed` instead returns through
`Except.ok` as data — the two outcomes are distinct constructors. -/
theorem pollStatus_query_failure_is_error (s : AppState) (pre post : List StatusResponse)
    (r : StatusResponse)
    (hpre : ∀ x ∈ pre, x.ok = true ∧ x.status ≠ "completed" ∧ x.status ≠ "failed")
    (hbad : r.ok = false) :
    pollLoopAux (pollStart s) (pre ++ r :: post)
        = (Except.error "Server error while checking status", pre.length) ∧
      pollStatus s (pre ++ r :: post) =
        { pollStart s with error := "Server error while checking status"
                           statusText := ""
                           loading := false } ∧
      (∀ (r2 : StatusResponse) (post2 : List StatusResponse),
        r2.ok = true → r2.status = "failed" →
        (pollLoopAux (pollStart s) (pre ++ r2 :: post2)).1
          = Except.ok (failedState (pollStart s) r2, PollExit.failed)) := by
  have hloop : pollLoopAux (pollStart s) (pre ++ r :: post)
      = (Except.error "Server error while checking status", pre.length) := by
    rw [pollLoopAux_append_nonterminal (pollStart s) pre (r :: post) hpre]
    simp [pollLoopAux, hbad]
  refine ⟨hloop, ?_, ?_⟩
  · simp only [pollStatus, hloop]
    simp [jsOrStr]
  · intro r2 post2 hok2 hst2
    rw [pollLoopAux_first_terminal (pollStart s) pre post2 r2 hpre hok2 (Or.inr hst2)]
    simp [terminalStep, hst2]

/-- Witness for C5: a storage-outage style non-OK status response. -/
theorem pollStatus_query_failure_is_error_witness :
    pollStatus initState
        ([] ++ [{ ok := false, status := "", explanation := none,
                  error_message := none, result := none }]) =
      { pollStart initState with error := "Server error while checking status"
                                 statusText := ""
                                 loading := false } :=
  (pollStatus_query_failure_is_error initState [] []
    { ok := false, status := "", explanation := none,
      error_message := none, result := none }
    (by simp) (by decide)).2.1

/-- The key of any rendered language button is a key of `LANGUAGES`. -/
lemma lang_key_mem (i : Fin LANGUAGES.length) : (LANGUAGES.get i).1 ∈ languageKeys :=
  List.mem_map_of_mem Prod.fst (LANGUAGES.get_mem i.1 i.2)

/-- The key of any rendered level button is a key of `SUMMARY_LEVELS`. -/
lemma level_key_mem (i : Fin SUMMARY_LEVELS.length) :
    (SUMMARY_LEVELS.get i).1 ∈ summaryLevelKeys :=
  List.mem_map_of_mem Prod.fst (SUMMARY_LEVELS.get_mem i.1 i.2)

/-- Every reachable component state keeps the selected summary level and
language inside the keys of the configuration objects. -/
lemma reachable_selected_keys (s : AppState) (h : Reachable s) :
    s.summaryLevel ∈ summaryLevelKeys ∧ s.language ∈ languageKeys := by
  induction h with
  | init =>
    constructor <;> simp [initState, summaryLevelKeys, languageKeys, SUMMARY_LEVELS, LANGUAGES]
  | step s e hs ih =>
    cases e with
    | selectLanguage i =>
      cases hl : s.loading with
      | true => simpa [step, hl] using ih
      | false =>
        constructor
        · simpa [step, hl] using ih.1
        · simp only [step, hl, Bool.false_eq_true, if_false, ite_false]
          exact lang_key_mem i
    | selectLevel i =>
      cases hl : s.loading with
      | true => simpa [step, hl] using ih
      | false =>
        constructor
        · simp only [step, hl, Bool.false_eq_true, if_false, ite_false]
          exact level_key_mem i
        · simpa [step, hl] using ih.2
    | chooseFile f => simpa [step] using ih
    | clickUpload resp rs =>
      cases hg : (s.loading || s.file.isNone) with
      | true => simpa [step, hg] using ih
      | false =>
        constructor
        · simp only [step, hg, Bool.false_eq_true, if_false, ite_false]
          rw [(uploadFile_preserves s resp rs).1]
          exact ih.1
        · simp only [step, hg, Bool.false_eq_true, if_false, ite_false]
          rw [(uploadFile_preserves s resp rs).2]
          exact ih.2
    | clickDownload =>
      by_cases hd : s.explanations.length = 0
      · simpa [step, hd] using ih
      · simpa [step, hd, downloadPdf] using ih

/-- C4: in every reachable UI state the selected summary level is one of
`beginner`, `comprehensive`, `executive` and the selected language is one
of `en`, `he`, `ru`, `es`, and every upload form built from such a state
carries `summary_level` and `language` drawn from those closed
enumerations — free-form values never reach the intake boundary. -/
theorem upload_config_in_enumerations (s : AppState) (h : Reachable s) :
    s.summaryLevel ∈ summaryLevelKeys ∧ s.language ∈ languageKeys ∧
      ∀ f : String,
        (buildFormData s f).summary_level ∈ summaryLevelKeys ∧
          (buildFormData s f).language ∈ languageKeys := by
  obtain ⟨h1, h2⟩ := reachable_selected_keys s h
  exact ⟨h1, h2, fun f => ⟨h1, h2⟩⟩

/-- Witness for C4: the invariant at the initial render. -/
theorem upload_config_in_enumerations_witness :
    initState.summaryLevel ∈ summaryLevelKeys ∧ initState.language ∈ languageKeys :=
  ⟨(upload_config_in_enumerations initState Reachable.init).1,
   (upload_config_in_enumerations initState Reachable.init).2.1⟩

/-- The polling loop never changes the stored upload identifier. -/
lemma pollLoopAux_ok_uploadUid (rs : List StatusResponse) (s : AppState)
    (p : AppState × PollExit) (h : (pollLoopAux s rs).1 = Except.ok p) :
    p.1.uploadUid = s.uploadUid := by
  induction rs with
  | nil =>
    simp [pollLoopAux] at h
    subst h
    rfl
  | cons r rest ih =>
    by_cases hok : r.ok = true
    · by_cases hc : r.status = "completed"
      · simp [pollLoopAux, hok, hc] at h
        subst h
        simp [completedState]
      · by_cases hf : r.status = "failed"
        · simp [pollLoopAux, hok, hc, hf] at h
          subst h
          simp [failedState]
        · rw [pollLoopAux_cons_nonterminal s r rest hok hc hf] at h
          exact ih h
    · have hko : r.ok = false := by simpa using hok
      simp [pollLoopAux, hko] at h

/-- `pollStatus` never changes the stored upload identifier. -/
lemma pollStatus_uploadUid (s : AppState) (rs : List StatusResponse) :
    (pollStatus s rs).uploadUid = s.uploadUid := by
  simp only [pollStatus]
  cases h : (pollLoopAux (pollStart s) rs).1 with
  | ok p =>
    have hp := pollLoopAux_ok_uploadUid rs (pollStart s) p h
    simpa [pollStart] using hp
  | error msg => simp [pollStart]

/-- Counterexample to C6 as stated: the success payload's `id` field does
not carry the identifier the client uses.  On a response carrying both a
`uid` and an `id` field, the client stores and polls the `uid` value,
which differs from the `id` value. -/
theorem upload_id_field_not_used :
    (uploadFile { initState with file := some "deck.pptx" }
        { ok := true, error := none, uid := some "u-1", id := some "id-9" } []).1.uploadUid
        = "u-1" ∧
      (uploadFile { initState with file := some "deck.pptx" }
        { ok := true, error := none, uid := some "u-1", id := some "id-9" } []).2.polledUid
        = some "u-1" ∧
      ({ ok := true, error := none, uid := some "u-1", id := some "id-9" }
          : UploadResponse).id = some "id-9" ∧
      ("u-1" : String) ≠ "id-9" := by
  refine ⟨rfl, rfl, rfl, by decide⟩

/-- C6 (amended): the intake boundary accepts the form
`(file, email, summary_level, language)`; on success the response field
`uid` carries the opaque job identifier, which the client stores and then
polls; on a non-OK response the body's `error` field is surfaced as the
client's error (with the `Upload failed` fallback) and no polling starts. -/
theorem upload_returns_uid (s : AppState) (f : String) (resp : UploadResponse)
    (rs : List StatusResponse) (hf : s.file = some f) :
    (uploadFile s resp rs).2.request = some (buildFormData s f) ∧
      (∀ u : String, resp.ok = true → resp.uid = some u →
        (uploadFile s resp rs).1.uploadUid = u ∧
          (uploadFile s resp rs).2.polledUid = some u) ∧
      (resp.ok = false →
        (uploadFile s resp rs).1.error = jsOrStr resp.error "Upload failed" ∧
          (uploadFile s resp rs).2.polledUid = none) := by
  unfold uploadFile
  rw [hf]
  by_cases hok : resp.ok = false
  · refine ⟨by simp [hok, buildFormData], ?_, ?_⟩
    · intro u hu _
      simp [hu] at hok
    · intro _
      simp [hok]
  · have hok2 : resp.ok = true := by revert hok; cases resp.ok <;> simp
    refine ⟨by simp [hok2, buildFormData], ?_, ?_⟩
    · intro u _ hu
      constructor
      · simp [hok2, pollStatus_uploadUid, hu]
      · simp [hok2, hu]
    · intro hbad
      simp [hbad] at hok2

/-- Witness for amended C6: a concrete successful upload stores the uid. -/
theorem upload_returns_uid_witness :
    (uploadFile { initState with file := some "deck.pptx" }
        { ok := true, error := none, uid := some "u-1", id := none } []).1.uploadUid
      = "u-1" :=
  ((upload_returns_uid { initState with file := some "deck.pptx" } "deck.pptx"
      { ok := true, error := none, uid := some "u-1", id := none } [] rfl).2.1
    "u-1" rfl rfl).1

/-- Counterexample to C7 as stated: the completed snapshot's summaries are
not read from a `result` field.  On a completed payload carrying both an
`explanation` and a `result` field with different contents, the client
displays the `explanation` contents, not the `result` contents. -/
theorem completed_summaries_not_from_result_field :
    (pollStatus initState
        [{ ok := true, status := "completed",
           explanation := some [{ slide_number := some 1, explanation := some "from explanation" }],
           error_message := none,
           result := some [{ slide_number := some 1, explanation := some "from result" }] }]).explanations
        = [{ slide_number := some 1, explanation := some "from explanation" }] ∧
      ({ ok := true, status := "completed",
         explanation := some [{ slide_number := some 1, explanation := some "from explanation" }],
         error_message := none,
         result := some [{ slide_number := some 1, explanation := some "from result" }] }
          : StatusResponse).result
        = some [{ slide_number := some 1, explanation := some "from result" }] ∧
      ([{ slide_number := some 1, explanation := some "from explanation" }]
          : List SlideExplanation)
        ≠ [{ slide_number := some 1, explanation := some "from result" }] := by
  refine ⟨rfl, rfl, by decide⟩

/-- C7 (amended): the status snapshot carries a completed job's per-slide
summaries in its `explanation` field — which the client reads into its
displayed list, clearing the error — and a failed job's failure
explanation in its `error_message` field, read into the client's error. -/
theorem status_snapshot_fields (s : AppState) (r : StatusResponse)
    (post : List StatusResponse) (hok : r.ok = true) :
    (r.status = "completed" →
      (pollStatus s (r :: post)).explanations = r.explanation.getD [] ∧
        (pollStatus s (r :: post)).error = "") ∧
      (r.status = "failed" →
        (pollStatus s (r :: post)).error = jsOrStr r.error_message "Processing failed") := by
  constructor
  · intro hc
    have hps := pollStatus_first_terminal s [] post r (by simp) hok (Or.inl hc)
    simp only [List.nil_append] at hps
    rw [hps]
    simp [terminalStep, hc, completedState]
  · intro hfl
    have hps := pollStatus_first_terminal s [] post r (by simp) hok (Or.inr hfl)
    simp only [List.nil_append] at hps
    rw [hps]
    simp [terminalStep, hfl, failedState]

/-- Witness for amended C7: a concrete completed snapshot's explanation
list reaches the displayed state. -/
theorem status_snapshot_fields_witness :
    (pollStatus initState
        [{ ok := true, status := "completed",
           explanation := some [{ slide_number := some 2, explanation := some "summary" }],
           error_message := none, result := none }]).explanations
      = ({ ok := true, status := "completed",
           explanation := some [{ slide_number := some 2, explanation := some "summary" }],
           error_message := none, result := none } : StatusResponse).explanation.getD [] :=
  ((status_snapshot_fields initState
      { ok := true, status := "completed",
        explanation := some [{ slide_number := some 2, explanation := some "summary" }],
        error_message := none, result := none } [] rfl).1 rfl).1
